import Mathlib

/-!
Verification development for `vector.py` (spatial vectors).

The Python source is shallowly embedded here:
* real coordinates are `ℝ`;
* a Python run-time error is a `PyErr`, and a fallible computation returns
  `Except PyErr α`;
* Python list indexing `xs[i]` and list index assignment `xs[i] = v` are
  modelled by `getItem` and `listAssign`, which raise `IndexError` exactly
  when the index is out of range (the source only ever uses nonnegative
  indices, so the index is a `ℕ`);
* the loops `for i in range(self._n)` are modelled by auxiliary recursions
  counting the remaining iterations.

Note the element-wise loops of `__add__`, `__sub__` and `scale` in the
source initialise `result = []` and then execute `result[i] = ...`, which
in Python raises `IndexError: list assignment index out of range` on the
very first iteration whenever the loop body runs at all.  The embedding
reproduces this faithfully.
-/

/-- The Python run-time errors that the modelled code paths can raise. -/
inductive PyErr where
  | indexError
  | zeroDivisionError
  | valueError
deriving DecidableEq

/-- `Vector.__init__`: a Vector stores (a defensive copy of) its Cartesian
coordinates `self._coords`.  The copy and the aliasing question are treated
separately in the heap model below; the pure value model here keeps only the
stored list. -/
structure Vector where
  _coords : List ℝ

/-- `self._n = len(a)`: the dimension.  In the source `_n` is a second field,
always equal to the length of `_coords` because the constructor sets both from
the same list; we model it as the derived length. -/
def Vector._n (v : Vector) : ℕ := v._coords.length

/-- Python list read `xs[i]` (nonnegative index): `IndexError` out of range. -/
def getItem (xs : List ℝ) (i : ℕ) : Except PyErr ℝ :=
  if h : i < xs.length then .ok (xs.get ⟨i, h⟩) else .error .indexError

/-- Python list index assignment `xs[i] = v` (nonnegative index):
`IndexError` when `i` is not an index of `xs`. -/
def listAssign (xs : List ℝ) (i : ℕ) (v : ℝ) : Except PyErr (List ℝ) :=
  if i < xs.length then .ok (xs.set i v) else .error .indexError

/-- The loop of `Vector.__add__`: `for i in range(n): result[i] =
self._coords[i] + other._coords[i]`.  `k` counts the remaining iterations;
each iteration first evaluates the right-hand side (two reads), then assigns. -/
def addAux (sc oc : List ℝ) : ℕ → ℕ → List ℝ → Except PyErr (List ℝ)
  | 0, _, result => .ok result
  | k + 1, i, result => do
      let a ← getItem sc i
      let b ← getItem oc i
      let r ← listAssign result i (a + b)
      addAux sc oc k (i + 1) r

/-- `Vector.__add__`: `result = []`, the element-wise loop, `Vector(result)`. -/
def Vector.add (u v : Vector) : Except PyErr Vector := do
  let r ← addAux u._coords v._coords u._n 0 []
  pure (Vector.mk r)

/-- The loop of `Vector.__sub__`. -/
def subAux (sc oc : List ℝ) : ℕ → ℕ → List ℝ → Except PyErr (List ℝ)
  | 0, _, result => .ok result
  | k + 1, i, result => do
      let a ← getItem sc i
      let b ← getItem oc i
      let r ← listAssign result i (a - b)
      subAux sc oc k (i + 1) r

/-- `Vector.__sub__`: `result = []`, the element-wise loop, `Vector(result)`. -/
def Vector.sub (u v : Vector) : Except PyErr Vector := do
  let r ← subAux u._coords v._coords u._n 0 []
  pure (Vector.mk r)

/-- The loop of `Vector.scale`: `result[i] = alpha * self._coords[i]`. -/
def scaleAux (sc : List ℝ) (alpha : ℝ) : ℕ → ℕ → List ℝ → Except PyErr (List ℝ)
  | 0, _, result => .ok result
  | k + 1, i, result => do
      let a ← getItem sc i
      let r ← listAssign result i (alpha * a)
      scaleAux sc alpha k (i + 1) r

/-- `Vector.scale`: `result = []`, the element-wise loop, `Vector(result)`. -/
def Vector.scale (u : Vector) (alpha : ℝ) : Except PyErr Vector := do
  let r ← scaleAux u._coords alpha u._n 0 []
  pure (Vector.mk r)

/-- The loop of `Vector.dot`: `result += self._coords[i] * other._coords[i]`
with accumulator `result` initialised to `0`. -/
def dotAux (sc oc : List ℝ) : ℕ → ℕ → ℝ → Except PyErr ℝ
  | 0, _, acc => .ok acc
  | k + 1, i, acc => do
      let a ← getItem sc i
      let b ← getItem oc i
      dotAux sc oc k (i + 1) (acc + a * b)

/-- `Vector.dot`: the accumulating loop over `range(self._n)`. -/
def Vector.dot (u v : Vector) : Except PyErr ℝ :=
  dotAux u._coords v._coords u._n 0 0

/-- A Python value as returned by `Vector.cross`: the source returns either
the raw list `result` (both branches) — never a `Vector` instance.  Python
objects carry their class, so the model tags the result. -/
inductive PyValue where
  | vec (v : Vector)
  | list (xs : List ℝ)

/-- Whether a computation returned (successfully) a `Vector` instance. -/
def isVectorResult : Except PyErr PyValue → Bool
  | .ok (PyValue.vec _) => true
  | _ => false

/-- `Vector.cross`: `result = [0,0,0]`; if `self._n == 3` the three
components are assigned (each right-hand side evaluated left to right),
else `result = []`; either way the raw list `result` is returned. -/
def Vector.cross (u v : Vector) : Except PyErr PyValue :=
  if u._n = 3 then do
    let s1 ← getItem u._coords 1
    let o2 ← getItem v._coords 2
    let s2 ← getItem u._coords 2
    let o1 ← getItem v._coords 1
    let r1 ← listAssign [0, 0, 0] 0 (s1 * o2 - s2 * o1)
    let s2b ← getItem u._coords 2
    let o0 ← getItem v._coords 0
    let s0 ← getItem u._coords 0
    let o2b ← getItem v._coords 2
    let r2 ← listAssign r1 1 (s2b * o0 - s0 * o2b)
    let s0b ← getItem u._coords 0
    let o1b ← getItem v._coords 1
    let s1b ← getItem u._coords 1
    let o0b ← getItem v._coords 0
    let r3 ← listAssign r2 2 (s0b * o1b - s1b * o0b)
    pure (PyValue.list r3)
  else
    pure (PyValue.list [])

/-- `math.sqrt`: raises `ValueError` on a negative argument, else the real
square root. -/
noncomputable def pySqrt (x : ℝ) : Except PyErr ℝ :=
  if x < 0 then .error .valueError else .ok (Real.sqrt x)

/-- Python float division `a / b`: raises `ZeroDivisionError` when `b == 0`
(Python scalar division does NOT produce `inf`). -/
noncomputable def pyDiv (a b : ℝ) : Except PyErr ℝ :=
  if b = 0 then .error .zeroDivisionError else .ok (a / b)

/-- `Vector.__abs__`: `math.sqrt(self.dot(self))`. -/
noncomputable def Vector.abs (u : Vector) : Except PyErr ℝ := do
  let d ← u.dot u
  pySqrt d

/-- `Vector.direction`: `self.scale(1.0 / abs(self))` — the magnitude is
computed first, then the division (which raises on a zero magnitude), then
the call to `scale`. -/
noncomputable def Vector.direction (u : Vector) : Except PyErr Vector := do
  let m ← u.abs
  let s ← pyDiv 1 m
  u.scale s

/-- Python's `%` on reals: `a % b = a - b * ⌊a / b⌋` (result has the sign of
`b`; for `b > 0` it lies in `[0, b)`).  Used for `deg % 360`. -/
noncomputable def pymod (a b : ℝ) : ℝ := a - b * ((⌊a / b⌋ : ℤ) : ℝ)

/-- `sin_d(deg)`: reduce `deg % 360`, return exact values at 90/180/270,
else `math.sin(math.radians(deg))`. -/
noncomputable def sin_d (deg : ℝ) : ℝ :=
  let d := pymod deg 360
  if d = 90 then 1.0
  else if d = 180 then 0
  else if d = 270 then -1.0
  else Real.sin (d * Real.pi / 180)

/-- `cos_d(deg)`: reduce `deg % 360`, return exact values at 90/180/270,
else `math.cos(math.radians(deg))`. -/
noncomputable def cos_d (deg : ℝ) : ℝ :=
  let d := pymod deg 360
  if d = 90 then 0
  else if d = 180 then -1.0
  else if d = 270 then 0
  else Real.cos (d * Real.pi / 180)

/-- `Spherical.__init__` on the input list `a = [r, azimuth, elevation]`
(radius, azimuth in degrees, elevation in degrees): converts to Cartesian
coordinates and delegates to `Vector.__init__` with `[i, j, k]`. -/
noncomputable def Spherical (r azimuth elevation : ℝ) : Vector :=
  let i := r * cos_d azimuth * sin_d elevation
  let j := r * sin_d azimuth * sin_d elevation
  let k := r * cos_d elevation
  Vector.mk [i, j, k]

/-!
Heap model for the defensive copy of `Vector.__init__`.

The pure value model above cannot express aliasing between the caller's
list and the Vector's `_coords`, so the constructor is modelled once more
against an explicit heap of Python lists: references are `ℕ`, a heap maps
each reference to the list object it holds and records the next fresh
reference.  `self._coords = a[:]` allocates a NEW list whose contents are
read from `a` at construction time (had the source written
`self._coords = a`, `vectorInitH` would return `⟨a, ...⟩` and the
isolation theorem below would fail).
-/

/-- A heap of Python list objects: contents per reference, next fresh ref. -/
structure Heap where
  mem : ℕ → List ℝ
  next : ℕ

/-- Read the list object held by reference `r`. -/
def heapRead (h : Heap) (r : ℕ) : List ℝ := h.mem r

/-- In-place mutation of the list object held by reference `r` (covers any
Python mutation of the caller's list: item assignment, append, etc., which
replace the contents of the same object). -/
def heapWrite (h : Heap) (r : ℕ) (xs : List ℝ) : Heap :=
  ⟨fun q => if q = r then xs else h.mem q, h.next⟩

/-- Allocate a fresh list object with contents `xs`. -/
def heapAlloc (h : Heap) (xs : List ℝ) : Heap × ℕ :=
  (⟨fun q => if q = h.next then xs else h.mem q, h.next + 1⟩, h.next)

/-- A Vector object on the heap: the reference to its `_coords` list and its
dimension `_n`. -/
structure VectorObj where
  coordsRef : ℕ
  n : ℕ

/-- `Vector.__init__(self, a)` against the heap: `self._coords = a[:]`
allocates a fresh copy of the contents of `a`; `self._n = len(a)`. -/
def vectorInitH (h : Heap) (a : ℕ) : Heap × VectorObj :=
  let copy := heapRead h a
  let alloc := heapAlloc h copy
  (alloc.1, ⟨alloc.2, copy.length⟩)

/-- The coordinates a heap-allocated Vector reports. -/
def vectorCoords (h : Heap) (v : VectorObj) : List ℝ := heapRead h v.coordsRef

/-!  Helper lemmas. -/

/-- Characterisation of a successful run of the `dot` loop: counting `k`
remaining iterations from position `i`, with both index reads in range. -/
theorem dotAux_ok (sc oc : List ℝ) :
    ∀ (k i : ℕ) (acc : ℝ), i + k ≤ sc.length → i + k ≤ oc.length →
      dotAux sc oc k i acc =
        .ok (acc + ∑ j ∈ Finset.range k, sc.getD (i + j) 0 * oc.getD (i + j) 0) := by
  intro k
  induction k with
  | zero => intro i acc h1 h2; simp [dotAux]
  | succ k ih =>
    intro i acc h1 h2
    have hs : i < sc.length := by omega
    have ho : i < oc.length := by omega
    rw [dotAux]
    have g1 : getItem sc i = .ok (sc.get ⟨i, hs⟩) := by simp [getItem, hs]
    have g2 : getItem oc i = .ok (oc.get ⟨i, ho⟩) := by simp [getItem, ho]
    rw [g1, g2]
    show dotAux sc oc k (i + 1) (acc + sc.get ⟨i, hs⟩ * oc.get ⟨i, ho⟩) = _
    rw [ih (i + 1) _ (by omega) (by omega)]
    have esum : ∑ x ∈ Finset.range k, sc.getD (i + 1 + x) 0 * oc.getD (i + 1 + x) 0
        = ∑ x ∈ Finset.range k, sc.getD (i + (x + 1)) 0 * oc.getD (i + (x + 1)) 0 := by
      apply Finset.sum_congr rfl
      intro x _
      have hx : i + 1 + x = i + (x + 1) := by omega
      rw [hx]
    have e0 : sc.getD (i + 0) 0 * oc.getD (i + 0) 0 = sc.get ⟨i, hs⟩ * oc.get ⟨i, ho⟩ := by
      simp [List.getD_eq_getElem?_getD, List.getElem?_eq_getElem, hs, ho]
    congr 1
    rw [Finset.sum_range_succ', ← esum, e0]
    ring

/-- `Vector.dot` succeeds on equal dimensions and returns the sum of the
element-wise products. -/
theorem Vector.dot_ok (u v : Vector) (h : u._n = v._n) :
    u.dot v = .ok (∑ j ∈ Finset.range u._n, u._coords.getD j 0 * v._coords.getD j 0) := by
  have hv : u._n ≤ v._coords.length := by
    rw [h]; exact le_of_eq rfl
  have := dotAux_ok u._coords v._coords u._n 0 0 (by simp [Vector._n]) (by simpa using hv)
  simpa using this

/-- A sum of squares of coordinates is nonnegative. -/
theorem sum_sq_nonneg (l : List ℝ) (n : ℕ) :
    0 ≤ ∑ j ∈ Finset.range n, l.getD j 0 * l.getD j 0 :=
  Finset.sum_nonneg fun _ _ => mul_self_nonneg _

/-- `Vector.__abs__` always succeeds: `dot(self, self)` is a nonnegative sum
of squares, so `math.sqrt` does not raise. -/
theorem Vector.abs_ok (u : Vector) :
    u.abs = .ok (Real.sqrt (∑ j ∈ Finset.range u._n, u._coords.getD j 0 * u._coords.getD j 0)) := by
  rw [Vector.abs, Vector.dot_ok u u rfl]
  show pySqrt _ = _
  rw [pySqrt, if_neg (not_lt.2 (sum_sq_nonneg u._coords u._n))]

/-- `Vector.direction` on a vector of known magnitude `m`: a zero magnitude
raises `ZeroDivisionError`; a nonzero one hands `1 / m` to `scale`. -/
theorem direction_split (x : Vector) (m : ℝ) (habs : x.abs = .ok m) :
    (m = 0 → x.direction = .error .zeroDivisionError) ∧
    (m ≠ 0 → x.direction = x.scale (1 / m)) := by
  constructor
  · intro h0
    rw [Vector.direction, habs]
    show pyDiv 1 m >>= _ = _
    rw [pyDiv, if_pos h0]
    rfl
  · intro h0
    rw [Vector.direction, habs]
    show pyDiv 1 m >>= _ = _
    rw [pyDiv, if_neg h0]
    rfl

/-- `a % 360` leaves `a` unchanged when `a` already lies in `[0, 360)`. -/
theorem pymod_small (d : ℝ) (h0 : 0 ≤ d) (h1 : d < 360) : pymod d 360 = d := by
  have hf : ⌊d / 360⌋ = 0 := by
    rw [Int.floor_eq_zero_iff]
    constructor
    · positivity
    · rw [div_lt_one (by norm_num : (0:ℝ) < 360)]
      simpa using h1
  rw [pymod, hf]
  norm_num

/-- `a % 360` lands in `[0, 360)`. -/
theorem pymod_range (d : ℝ) : 0 ≤ pymod d 360 ∧ pymod d 360 < 360 := by
  have h360 : (0:ℝ) < 360 := by norm_num
  constructor
  · rw [pymod]
    have := Int.floor_le (d / 360)
    nlinarith
  · rw [pymod]
    have := Int.lt_floor_add_one (d / 360)
    nlinarith

/-- `(d + 360) % 360 = d % 360`. -/
theorem pymod_add_360 (d : ℝ) : pymod (d + 360) 360 = pymod d 360 := by
  have hdiv : (d + 360) / 360 = d / 360 + 1 := by
    field_simp
  rw [pymod, pymod, hdiv, Int.floor_add_one]
  push_cast
  ring

/-- `sin_d` at 90. -/
theorem sin_d_90 : sin_d 90 = 1 := by
  rw [sin_d]
  simp only [pymod_small 90 (by norm_num) (by norm_num)]
  norm_num

/-- `sin_d` at 180. -/
theorem sin_d_180 : sin_d 180 = 0 := by
  rw [sin_d]
  simp only [pymod_small 180 (by norm_num) (by norm_num)]
  norm_num

/-- `sin_d` at 270. -/
theorem sin_d_270 : sin_d 270 = -1 := by
  rw [sin_d]
  simp only [pymod_small 270 (by norm_num) (by norm_num)]
  norm_num

/-- `cos_d` at 90. -/
theorem cos_d_90 : cos_d 90 = 0 := by
  rw [cos_d]
  simp only [pymod_small 90 (by norm_num) (by norm_num)]
  norm_num

/-- `cos_d` at 180. -/
theorem cos_d_180 : cos_d 180 = -1 := by
  rw [cos_d]
  simp only [pymod_small 180 (by norm_num) (by norm_num)]
  norm_num

/-- `cos_d` at 270. -/
theorem cos_d_270 : cos_d 270 = 0 := by
  rw [cos_d]
  simp only [pymod_small 270 (by norm_num) (by norm_num)]
  norm_num

/-- `sin_d` is 360-periodic (the argument is reduced modulo 360 first). -/
theorem sin_d_period (d : ℝ) : sin_d (d + 360) = sin_d d := by
  rw [sin_d, sin_d, pymod_add_360]

/-- `cos_d` is 360-periodic (the argument is reduced modulo 360 first). -/
theorem cos_d_period (d : ℝ) : cos_d (d + 360) = cos_d d := by
  rw [cos_d, cos_d, pymod_add_360]

/-- The 3-dimensional branch of `cross`, on fully concrete coordinate lists:
the returned object is the raw list of the three cross-product components. -/
theorem cross_3d (a b c d e f : ℝ) :
    (Vector.mk [a, b, c]).cross (Vector.mk [d, e, f]) =
      .ok (PyValue.list [b * f - c * e, c * d - a * f, a * e - b * d]) := by
  simp [Vector.cross, Vector._n, getItem, listAssign, Bind.bind, Except.bind, pure, Except.pure]

/-- The non-3-dimensional branch of `cross`: the empty list, no error. -/
theorem cross_non3 (u v : Vector) (h : u._n ≠ 3) :
    u.cross v = .ok (PyValue.list []) := by
  rw [Vector.cross, if_neg h]
  rfl

/-!  Claim theorems. -/

/-- C1: the claim says `add` returns the element-wise sum for every pair of
equal-dimension Vectors.  In the source, `__add__` initialises `result = []`
and then executes `result[i] = ...`, which raises `IndexError` on the first
iteration for every dimension `n ≥ 1`; here the code is evaluated at the
1-dimensional pair `Vector([1.0]) + Vector([1.0])`.  This contradicts the
file's own API header (`Addition: x + y = (x0 + y0, x1 + y1, ...)`) and its
documented demo output, so the code, not the claim, is wrong. -/
theorem C1_add_raises :
    (Vector.mk [(1:ℝ)]).add (Vector.mk [(1:ℝ)]) = .error .indexError := by
  simp [Vector.add, addAux, getItem, listAssign, Vector._n, Bind.bind, Except.bind]

/-- C2: the claim says the demonstration routine produces
`x + y = [6.0, 4.0, 7.0, 5.0]`, `10x = [10.0, ...]`, `|x| ≈ 5.477...`,
`<x, y> = 25.0`, `|x - y| ≈ 5.099...`.  In fact `main` crashes at the
`x + y` line: `__add__` raises `IndexError` on its first loop iteration,
evaluated here at the demo's own vectors `[1.0, 2.0, 3.0, 4.0]` and
`[5.0, 2.0, 4.0, 1.0]`.  The values the claim lists are the ones the
source documents as its expected output, so the code contradicts its own
documentation. -/
theorem C2_demo_raises :
    (Vector.mk [(1:ℝ), 2, 3, 4]).add (Vector.mk [5, 2, 4, 1]) = .error .indexError := by
  simp [Vector.add, addAux, getItem, listAssign, Vector._n, Bind.bind, Except.bind]

/-- C3 counterexample: the claim says `cross` on 3-dimensional inputs returns
the cross product "as a Vector".  The source returns the raw list `result`
(there is no `Vector(result)` wrapping, unlike every other operation), so at
`U = Vector([1,0,0])`, `V = Vector([0,1,0])` the returned object is a plain
list, not a `Vector` instance. -/
theorem C3_counterexample :
    isVectorResult ((Vector.mk [(1:ℝ), 0, 0]).cross (Vector.mk [0, 1, 0])) = false := by
  rw [cross_3d]
  rfl

/-- C3 (amended): for 3-dimensional `U = (a,b,c)` and `V = (d,e,f)`,
`cross` returns the standard cross-product components
`(U2V3−U3V2, U3V1−U1V3, U1V2−U2V1)` as a plain list (not a Vector); and for
every `U` of dimension ≠ 3 it returns the empty list, without raising. -/
theorem C3_cross :
    (∀ a b c d e f : ℝ,
      (Vector.mk [a, b, c]).cross (Vector.mk [d, e, f]) =
        .ok (PyValue.list [b * f - c * e, c * d - a * f, a * e - b * d])) ∧
    (∀ u v : Vector, u._n ≠ 3 → u.cross v = .ok (PyValue.list [])) :=
  ⟨cross_3d, cross_non3⟩

/-- C3 witness: the amended statement evaluated at
`U = Vector([1,0,0])`, `V = Vector([0,1,0])` (3-dimensional branch) and at
the 2-dimensional `U = Vector([1,2])` with `V = Vector([3])`. -/
theorem C3_cross_witness :
    (Vector.mk [(1:ℝ), 0, 0]).cross (Vector.mk [0, 1, 0]) =
      .ok (PyValue.list [0 * 0 - 0 * 1, 0 * 0 - 1 * 0, 1 * 1 - 0 * 0]) ∧
    ((Vector.mk [(1:ℝ), 2])._n ≠ 3 ∧
      (Vector.mk [(1:ℝ), 2]).cross (Vector.mk [3]) = .ok (PyValue.list [])) :=
  ⟨C3_cross.1 1 0 0 0 1 0,
   by simp [Vector._n], C3_cross.2 (Vector.mk [1, 2]) (Vector.mk [3]) (by simp [Vector._n])⟩

/-- C4: for equal-dimension Vectors, `dot` returns the sum of the
element-wise products of the coordinates; for dimension 0 the loop body
never runs and the initial accumulator `0` is returned. -/
theorem C4_dot (u v : Vector) (h : u._n = v._n) :
    u.dot v = .ok (∑ j ∈ Finset.range u._n, u._coords.getD j 0 * v._coords.getD j 0) ∧
    (u._n = 0 → u.dot v = .ok 0) := by
  refine ⟨Vector.dot_ok u v h, fun h0 => ?z⟩
  rw [Vector.dot, h0]
  rfl

/-- C4 witness: `dot` at `Vector([1,2]) · Vector([3,4]) = 11` and at the
zero-length pair. -/
theorem C4_dot_witness :
    ((Vector.mk [(1:ℝ), 2])._n = (Vector.mk [(3:ℝ), 4])._n ∧
      (Vector.mk [(1:ℝ), 2]).dot (Vector.mk [3, 4]) = .ok 11) ∧
    (Vector.mk ([] : List ℝ)).dot (Vector.mk []) = .ok 0 := by
  constructor
  · refine ⟨rfl, ?v⟩
    have h := (C4_dot (Vector.mk [(1:ℝ), 2]) (Vector.mk [3, 4]) rfl).1
    rw [h]
    norm_num [Vector._n, Finset.sum_range_succ]
  · exact (C4_dot (Vector.mk []) (Vector.mk []) rfl).2 rfl

/-- C5: `sin_d`/`cos_d` are exact at the cardinal angles
(`cos_d(90) = 0`, `cos_d(180) = -1`, `cos_d(270) = 0`, `sin_d(90) = 1`,
`sin_d(180) = 0`, `sin_d(270) = -1`), both reduce their argument modulo 360
into `[0, 360)`, and consequently both are 360-periodic; in particular
`sin_d(450) = sin_d(90)`. -/
theorem C5_trig :
    cos_d 90 = 0 ∧ cos_d 180 = -1 ∧ cos_d 270 = 0 ∧
    sin_d 90 = 1 ∧ sin_d 180 = 0 ∧ sin_d 270 = -1 ∧
    (∀ d : ℝ, 0 ≤ pymod d 360 ∧ pymod d 360 < 360) ∧
    (∀ d : ℝ, sin_d (d + 360) = sin_d d) ∧
    (∀ d : ℝ, cos_d (d + 360) = cos_d d) ∧
    sin_d 450 = sin_d 90 := by
  refine ⟨cos_d_90, cos_d_180, cos_d_270, sin_d_90, sin_d_180, sin_d_270,
    pymod_range, sin_d_period, cos_d_period, ?e⟩
  rw [show (450:ℝ) = 90 + 360 by norm_num, sin_d_period]

/-- C6: for every Vector `x`, `magnitude(x)` is `sqrt(dot(x, x))` — the
`dot(self, self)` call always succeeds and yields the (nonnegative) sum of
squares `d`, `math.sqrt` does not raise on it — and the result is ≥ 0. -/
theorem C6_magnitude (u : Vector) :
    ∃ d : ℝ, u.dot u = .ok d ∧ u.abs = .ok (Real.sqrt d) ∧ 0 ≤ Real.sqrt d :=
  ⟨_, Vector.dot_ok u u rfl, Vector.abs_ok u, Real.sqrt_nonneg _⟩

/-- C7: `Spherical(r, azimuth, elevation)` is exactly the Vector built from
`[r*cos_d(azimuth)*sin_d(elevation), r*sin_d(azimuth)*sin_d(elevation),
r*cos_d(elevation)]` — the constructor only converts and delegates, so the
result is literally a plain 3-dimensional Vector with those coordinates. -/
theorem C7_spherical (r azimuth elevation : ℝ) :
    Spherical r azimuth elevation =
      Vector.mk [r * cos_d azimuth * sin_d elevation,
                 r * sin_d azimuth * sin_d elevation,
                 r * cos_d elevation] ∧
    (Spherical r azimuth elevation)._n = 3 :=
  ⟨rfl, rfl⟩

/-- C8 counterexample: the claim says that on a zero-magnitude vector
`direction` "propagates the platform's divide-by-zero float behavior rather
than raising an exception".  Python raises `ZeroDivisionError` for
`1.0 / 0.0`: at the zero vector `Vector([0.0, 0.0, 0.0])` the embedded
`direction` yields the `ZeroDivisionError` exception, not a float. -/
theorem C8_counterexample :
    (Vector.mk [(0:ℝ), 0, 0]).direction = .error .zeroDivisionError := by
  have habs : (Vector.mk [(0:ℝ), 0, 0]).abs = .ok 0 := by
    rw [Vector.abs_ok]
    norm_num [Vector._n, Finset.sum_range_succ]
  exact (direction_split _ 0 habs).1 rfl

/-- C8 (amended): `direction` computes `abs(self)` first, then the division
`1.0 / m`, then `scale`.  For a nonzero magnitude `m` it returns exactly the
computation `scale(self, 1/m)`; for `m = 0` the unguarded division raises
`ZeroDivisionError` — an exception, not the claimed non-finite float. -/
theorem C8_direction (x : Vector) (m : ℝ) (habs : x.abs = .ok m) :
    (m = 0 → x.direction = .error .zeroDivisionError) ∧
    (m ≠ 0 → x.direction = x.scale (1 / m)) :=
  direction_split x m habs

/-- C8 witness: at `Vector([0.0])` (magnitude 0) the amended theorem gives
the `ZeroDivisionError`; at `Vector([3.0, 4.0])` (magnitude 5) it gives
`direction = scale(1/5)`. -/
theorem C8_direction_witness :
    ((Vector.mk [(0:ℝ)]).abs = .ok 0 ∧
      (Vector.mk [(0:ℝ)]).direction = .error .zeroDivisionError) ∧
    ((Vector.mk [(3:ℝ), 4]).abs = .ok 5 ∧
      (Vector.mk [(3:ℝ), 4]).direction = (Vector.mk [(3:ℝ), 4]).scale (1 / 5)) := by
  have h0 : (Vector.mk [(0:ℝ)]).abs = .ok 0 := by
    rw [Vector.abs_ok]
    norm_num [Vector._n, Finset.sum_range_succ]
  have h5 : (Vector.mk [(3:ℝ), 4]).abs = .ok 5 := by
    rw [Vector.abs_ok]
    norm_num [Vector._n, Finset.sum_range_succ]
    rw [show (25:ℝ) = 5 ^ 2 by norm_num, Real.sqrt_sq (by norm_num : (0:ℝ) ≤ 5)]
  exact ⟨⟨h0, (C8_direction _ 0 h0).1 rfl⟩,
         ⟨h5, (C8_direction _ 5 h5).2 (by norm_num)⟩⟩

/-- C9: construction is copy-isolating.  Against the heap model,
`Vector.__init__` allocates a fresh list (`self._coords = a[:]`), so
mutating the caller's list object `a` afterwards (`heapWrite`) leaves the
constructed Vector's reported coordinates equal to the contents of `a` at
construction time; the dimension is the length at construction time.  (All
other operations are pure in the embedding: none assigns to `_coords`.) -/
theorem C9_defensive_copy (h : Heap) (a : ℕ) (xs : List ℝ) (ha : a < h.next) :
    vectorCoords (heapWrite (vectorInitH h a).1 a xs) (vectorInitH h a).2 = heapRead h a ∧
    vectorCoords (vectorInitH h a).1 (vectorInitH h a).2 = heapRead h a ∧
    (vectorInitH h a).2.n = (heapRead h a).length := by
  have hne : h.next ≠ a := by omega
  refine ⟨?w, ?r, rfl⟩
  · simp [vectorCoords, vectorInitH, heapAlloc, heapWrite, heapRead, hne]
  · simp [vectorCoords, vectorInitH, heapAlloc, heapWrite, heapRead]

/-- C9 witness: a 2-cell heap whose reference 0 holds `[1.0, 2.0]`; after
constructing a Vector from reference 0 and then overwriting that list with
`[9.0]`, the Vector still reports `[1.0, 2.0]`. -/
theorem C9_defensive_copy_witness :
    0 < (Heap.mk (fun _ => [(1:ℝ), 2]) 1).next ∧
    vectorCoords
      (heapWrite (vectorInitH (Heap.mk (fun _ => [(1:ℝ), 2]) 1) 0).1 0 [9])
      (vectorInitH (Heap.mk (fun _ => [(1:ℝ), 2]) 1) 0).2 =
      heapRead (Heap.mk (fun _ => [(1:ℝ), 2]) 1) 0 :=
  ⟨by norm_num, (C9_defensive_copy (Heap.mk (fun _ => [(1:ℝ), 2]) 1) 0 [9] (by norm_num)).1⟩

/-- C10: on zero-dimensional Vectors the element loops of `add`, `sub` and
`scale` never run, so no `result[i] = ...` assignment (the error branch) is
reached: each returns a zero-dimensional Vector without raising. -/
theorem C10_zero_dim (u v : Vector) (hu : u._n = 0) (_hv : v._n = 0) :
    (∃ w : Vector, u.add v = .ok w ∧ w._n = 0) ∧
    (∃ w : Vector, u.sub v = .ok w ∧ w._n = 0) ∧
    (∀ alpha : ℝ, ∃ w : Vector, u.scale alpha = .ok w ∧ w._n = 0) := by
  refine ⟨⟨Vector.mk [], ?a, rfl⟩, ⟨Vector.mk [], ?s, rfl⟩,
    fun alpha => ⟨Vector.mk [], ?c, rfl⟩⟩
  · rw [Vector.add, hu]; rfl
  · rw [Vector.sub, hu]; rfl
  · rw [Vector.scale, hu]; rfl

/-- C10 witness: the statement at the concrete zero-dimensional pair
`Vector([])`, `Vector([])` (with scalar instance inside). -/
theorem C10_zero_dim_witness :
    (Vector.mk ([] : List ℝ))._n = 0 ∧
    ((∃ w : Vector, (Vector.mk ([] : List ℝ)).add (Vector.mk []) = .ok w ∧ w._n = 0) ∧
     (∃ w : Vector, (Vector.mk ([] : List ℝ)).sub (Vector.mk []) = .ok w ∧ w._n = 0) ∧
     (∀ alpha : ℝ, ∃ w : Vector, (Vector.mk ([] : List ℝ)).scale alpha = .ok w ∧ w._n = 0)) :=
  ⟨rfl, C10_zero_dim (Vector.mk []) (Vector.mk []) rfl rfl⟩
